import Mathlib

/-!
Verification of the OpenHealth backend (shelters and events directory).

The relational store is modelled as a Lean list of table rows.  SQL NULL
is modelled by Option, and a SQL comparison whose nullable operand is
NULL is not satisfied (three-valued logic collapsed at the WHERE
clause).  Timestamps are integers (seconds).  The PostGIS geometry
functions ST_Distance and ST_DWithin are primitives of the external
store and enter the nearby queries as function parameters.  Each crud
function from backend/crud is translated to a pure Lean function on the
list state; pagination, filtering and ordering follow the SQLAlchemy
query expressions literally (count before offset/limit, mergeSort for
ORDER BY — stable, so ties keep the enumeration order of the store).
-/

set_option linter.unusedVariables false

abbrev Timestamp := Int

/-- SQL comparison `column >= bound` on a nullable timestamp column:
satisfied only when the column is non-NULL and the comparison holds. -/
def optGe (v : Option Int) (t : Int) : Bool :=
  match v with
  | some d => decide (t ≤ d)
  | none => false

/-- Row of the events table (models/events.py).  Nullable columns are
Option; location is the stored WKT geometry text (NOT NULL column). -/
structure Event where
  event_id : Int
  event_name : String
  description : Option String := none
  event_type : String
  address : Option String := none
  contact_phone : Option String := none
  location : String
  opening_hours : Option String := none
  capacity : Option Int := none
  services : Option String := none
  event_date : Timestamp
  end_date : Option Timestamp := none
  created_by : Option Int := none
  created_at : Timestamp := 0
deriving DecidableEq, Repr

/-- WHERE clause of get_active_events:
`event_date <= now AND (end_date >= now OR end_date IS NULL)`. -/
def activeWhere (now : Timestamp) (e : Event) : Bool :=
  decide (e.event_date ≤ now) && (optGe e.end_date now || e.end_date.isNone)

/-- WHERE clause of get_upcoming_events:
`end_date >= now OR (end_date IS NULL AND event_date >= now)`. -/
def upcomingWhere (now : Timestamp) (e : Event) : Bool :=
  optGe e.end_date now || (e.end_date.isNone && decide (now ≤ e.event_date))

/-- Comparator of `ORDER BY Event.event_date DESC`. -/
def eventDateDesc (a b : Event) : Bool := decide (b.event_date ≤ a.event_date)

/-- Comparator of `ORDER BY Event.event_date ASC`. -/
def eventDateAsc (a b : Event) : Bool := decide (a.event_date ≤ b.event_date)

/-- get_active_events (events_crud.py): filter by `activeWhere`, count,
then order by event_date descending, offset skip, limit.  Returns the
page and the total. -/
def get_active_events (db : List Event) (now : Timestamp) (skip limit : Nat) :
    List Event × Nat :=
  let q := db.filter (activeWhere now)
  (((q.mergeSort eventDateDesc).drop skip).take limit, q.length)

/-- get_upcoming_events (events_crud.py): filter by `upcomingWhere`,
count, then order by event_date ascending, offset skip, limit.  The
days_ahead argument is received but never used in the query, exactly as
in the source. -/
def get_upcoming_events (db : List Event) (now : Timestamp) (skip limit : Nat)
    (days_ahead : Int) : List Event × Nat :=
  let q := db.filter (upcomingWhere now)
  (((q.mergeSort eventDateAsc).drop skip).take limit, q.length)

/-- A concrete event used by witnesses: started at time 0, no end date. -/
def evNoEnd : Event :=
  { event_id := 10, event_name := "Food drive", event_type := "food",
    location := "SRID=4326;POINT(0 0)", event_date := 0, end_date := none }

lemma mem_page_of_le {α : Type} [DecidableEq α] (le : α → α → Bool)
    (q : List α) (limit : Nat) (h : q.length ≤ limit) (e : α) :
    e ∈ ((q.mergeSort le).drop 0).take limit ↔ e ∈ q := by
  rw [List.drop_zero,
    List.take_of_length_le (by simpa [List.length_mergeSort] using h),
    List.mem_mergeSort]

/-- C1: for every event and every time now, the event is in the result
of the active-events query (no pagination cut: skip 0, limit at least
the store size) iff `event_date <= now` and (`end_date >= now` or
end_date is NULL); in particular a started event with NULL end date is
perpetually active. -/
theorem active_events_classification (db : List Event) (now : Timestamp)
    (limit : Nat) (hlim : db.length ≤ limit) (e : Event) :
    e ∈ (get_active_events db now 0 limit).1 ↔
      e ∈ db ∧ (e.event_date ≤ now ∧
        ((∃ d, e.end_date = some d ∧ now ≤ d) ∨ e.end_date = none)) := by
  unfold get_active_events
  rw [mem_page_of_le _ _ _ (le_trans (List.length_filter_le _ db) hlim),
    List.mem_filter]
  constructor
  · rintro ⟨hm, hw⟩
    refine ⟨hm, ?_⟩
    cases hend : e.end_date with
    | none => simp [activeWhere, optGe, hend] at hw; exact ⟨hw, Or.inr rfl⟩
    | some d =>
      simp [activeWhere, optGe, hend] at hw
      exact ⟨hw.1, Or.inl ⟨d, rfl, hw.2⟩⟩
  · rintro ⟨hm, hd, hrest⟩
    refine ⟨hm, ?_⟩
    cases hend : e.end_date with
    | none => simp [activeWhere, optGe, hend, hd]
    | some d =>
      rcases hrest with ⟨d2, hd2, hnow⟩ | hnone
      · rw [hend] at hd2; cases hd2
        simp [activeWhere, optGe, hend, hd, hnow]
      · rw [hend] at hnone; cases hnone

/-- Witness for C1: a single-event store at time 5; the event started at
0 with no end date and is classified active. -/
theorem active_events_classification_witness :
    List.length [evNoEnd] ≤ 1 ∧
      (evNoEnd ∈ (get_active_events [evNoEnd] 5 0 1).1 ↔
        evNoEnd ∈ [evNoEnd] ∧ (evNoEnd.event_date ≤ 5 ∧
          ((∃ d, evNoEnd.end_date = some d ∧ 5 ≤ d) ∨ evNoEnd.end_date = none))) :=
  ⟨by decide, active_events_classification [evNoEnd] 5 1 (by decide) evNoEnd⟩

/-- C2: for every event and every time now, the event is in the result
of the upcoming-events query (no pagination cut) iff `end_date >= now`,
or end_date is NULL and `event_date >= now`; in particular an event with
NULL end date whose start has passed is not upcoming. -/
theorem upcoming_events_classification (db : List Event) (now : Timestamp)
    (limit : Nat) (days_ahead : Int) (hlim : db.length ≤ limit) (e : Event) :
    e ∈ (get_upcoming_events db now 0 limit days_ahead).1 ↔
      e ∈ db ∧ ((∃ d, e.end_date = some d ∧ now ≤ d) ∨
        (e.end_date = none ∧ now ≤ e.event_date)) := by
  unfold get_upcoming_events
  rw [mem_page_of_le _ _ _ (le_trans (List.length_filter_le _ db) hlim),
    List.mem_filter]
  constructor
  · rintro ⟨hm, hw⟩
    refine ⟨hm, ?_⟩
    cases hend : e.end_date with
    | none => simp [upcomingWhere, optGe, hend] at hw; exact Or.inr ⟨rfl, hw⟩
    | some d =>
      simp [upcomingWhere, optGe, hend] at hw
      exact Or.inl ⟨d, rfl, hw⟩
  · rintro ⟨hm, hrest⟩
    refine ⟨hm, ?_⟩
    rcases hrest with ⟨d, hd, hnow⟩ | ⟨hnone, hstart⟩
    · simp [upcomingWhere, optGe, hd, hnow]
    · simp [upcomingWhere, optGe, hnone, hstart]

/-- Witness for C2: at time 5 the event that started at 0 with no end
date is not in the upcoming result (both sides of the iff are false). -/
theorem upcoming_events_classification_witness :
    List.length [evNoEnd] ≤ 1 ∧
      (evNoEnd ∈ (get_upcoming_events [evNoEnd] 5 0 1 30).1 ↔
        evNoEnd ∈ [evNoEnd] ∧ ((∃ d, evNoEnd.end_date = some d ∧ 5 ≤ d) ∨
          (evNoEnd.end_date = none ∧ 5 ≤ evNoEnd.event_date))) :=
  ⟨by decide, upcoming_events_classification [evNoEnd] 5 1 30 (by decide) evNoEnd⟩

/-- External (longitude, latitude) representation; pydantic validates
longitude in [-180,180] and latitude in [-90,90] at the boundary.
Coordinates are rationals (floats in the source). -/
structure LocationPoint where
  longitude : Rat
  latitude : Rat
deriving DecidableEq, Repr

/-- location_to_wkt (both crud modules): encode a point as EWKT text. -/
def location_to_wkt (p : LocationPoint) : String :=
  "SRID=4326;POINT(" ++ toString p.longitude ++ " " ++ toString p.latitude ++ ")"

/-- Row of the shelters table (models/shelters.py). -/
structure Shelter where
  shelter_id : Int
  shelter_name : String
  description : Option String := none
  address : Option String := none
  contact_phone : Option String := none
  location : String
  opening_hours : Option String := none
  capacity : Option Int := none
  available_beds : Option Int := none
  services : Option String := none
  details : Option String := none
  created_by : Option Int := none
  created_at : Timestamp := 0
deriving DecidableEq, Repr

/-- ShelterCreate payload (schemas/shelters.py), after pydantic type
checking. -/
structure ShelterCreate where
  shelter_id : Int
  shelter_name : String
  description : Option String := none
  address : Option String := none
  contact_phone : Option String := none
  location : LocationPoint
  opening_hours : Option String := none
  capacity : Option Int := none
  available_beds : Option Int := none
  services : Option String := none
  details : Option String := none
  created_by : Option Int := none
deriving DecidableEq, Repr

/-- EventType enum (schemas/events.py). -/
inductive EventType where
  | medical
  | food
  | hygiene
  | community_support
  | other
deriving DecidableEq, Repr

/-- The string value stored for an EventType. -/
def EventType.value : EventType → String
  | .medical => "medical"
  | .food => "food"
  | .hygiene => "hygiene"
  | .community_support => "community_support"
  | .other => "other"

/-- EventCreate payload (schemas/events.py), after pydantic type
checking (field validators are modelled separately). -/
structure EventCreate where
  event_id : Int
  event_name : String
  description : Option String := none
  event_type : EventType
  address : Option String := none
  contact_phone : Option String := none
  location : LocationPoint
  opening_hours : Option String := none
  capacity : Option Int := none
  services : Option String := none
  event_date : Timestamp
  end_date : Option Timestamp := none
  created_by : Option Int := none
deriving DecidableEq, Repr

/-- Errors raised by the crud layer (fastapi HTTPException). -/
inductive CrudError where
  | httpException (status : Int) (detail : String)
deriving DecidableEq, Repr

/-- create_shelter (shelters_crud.py): query for an existing row with
the same id, raise 400 before touching the store if found, otherwise
insert the new row (created_at is server-assigned to now) and return
it.  The returned list is the store state after the call. -/
def create_shelter (db : List Shelter) (p : ShelterCreate) (now : Timestamp) :
    List Shelter × Except CrudError Shelter :=
  match db.find? (fun s => s.shelter_id == p.shelter_id) with
  | some _ => (db, .error (.httpException 400
      ("El shelter_id " ++ toString p.shelter_id ++ " ya existe")))
  | none =>
    let row : Shelter :=
      { shelter_id := p.shelter_id, shelter_name := p.shelter_name,
        description := p.description, address := p.address,
        contact_phone := p.contact_phone,
        location := location_to_wkt p.location,
        opening_hours := p.opening_hours, capacity := p.capacity,
        available_beds := p.available_beds, services := p.services,
        details := p.details, created_by := p.created_by,
        created_at := now }
    (db ++ [row], .ok row)

/-- create_event (events_crud.py): same shape as create_shelter; the
enum is stored through its string value. -/
def create_event (db : List Event) (p : EventCreate) (now : Timestamp) :
    List Event × Except CrudError Event :=
  match db.find? (fun e => e.event_id == p.event_id) with
  | some _ => (db, .error (.httpException 400
      ("El event_id " ++ toString p.event_id ++ " ya existe")))
  | none =>
    let row : Event :=
      { event_id := p.event_id, event_name := p.event_name,
        description := p.description, event_type := p.event_type.value,
        address := p.address, contact_phone := p.contact_phone,
        location := location_to_wkt p.location,
        opening_hours := p.opening_hours, capacity := p.capacity,
        services := p.services, event_date := p.event_date,
        end_date := p.end_date, created_by := p.created_by,
        created_at := now }
    (db ++ [row], .ok row)

/-- A concrete stored shelter used by witnesses. -/
def shA : Shelter :=
  { shelter_id := 1, shelter_name := "Shelter A",
    location := "SRID=4326;POINT(-122.4 37.8)", available_beds := some 5 }

/-- A concrete shelter payload reusing id 1. -/
def shPayload1 : ShelterCreate :=
  { shelter_id := 1, shelter_name := "Shelter A bis",
    location := { longitude := -122.4, latitude := 37.8 } }

/-- A concrete event payload reusing id 10. -/
def evPayload10 : EventCreate :=
  { event_id := 10, event_name := "Food drive bis", event_type := .food,
    location := { longitude := 0, latitude := 0 }, event_date := 0 }

/-- C3: creating a shelter or an event whose id already exists fails
with the 400 conflict error, and the store state after the call equals
the state before it — in particular every existing record, including the
one with the conflicting id, is unchanged (no partial write). -/
theorem create_conflict_preserves_store
    (sdb : List Shelter) (sp : ShelterCreate) (snow : Timestamp)
    (edb : List Event) (ep : EventCreate) (enow : Timestamp)
    (hs : ∃ s ∈ sdb, s.shelter_id = sp.shelter_id)
    (he : ∃ e ∈ edb, e.event_id = ep.event_id) :
    (create_shelter sdb sp snow).1 = sdb ∧
    (create_shelter sdb sp snow).2 = .error (.httpException 400
      ("El shelter_id " ++ toString sp.shelter_id ++ " ya existe")) ∧
    (create_event edb ep enow).1 = edb ∧
    (create_event edb ep enow).2 = .error (.httpException 400
      ("El event_id " ++ toString ep.event_id ++ " ya existe")) := by
  obtain ⟨s, hsm, hsid⟩ := hs
  obtain ⟨e, hem, heid⟩ := he
  have hfs : (sdb.find? (fun s => s.shelter_id == sp.shelter_id)).isSome :=
    List.find?_isSome.mpr ⟨s, hsm, by simp [hsid]⟩
  have hfe : (edb.find? (fun e => e.event_id == ep.event_id)).isSome :=
    List.find?_isSome.mpr ⟨e, hem, by simp [heid]⟩
  cases hfs2 : sdb.find? (fun s => s.shelter_id == sp.shelter_id) with
  | none => rw [hfs2] at hfs; cases hfs
  | some s0 =>
    cases hfe2 : edb.find? (fun e => e.event_id == ep.event_id) with
    | none => rw [hfe2] at hfe; cases hfe
    | some e0 =>
      refine ⟨?_, ?_, ?_, ?_⟩ <;> simp [create_shelter, create_event, hfs2, hfe2]

/-- Witness for C3: a one-shelter and a one-event store, with payloads
reusing ids 1 and 10. -/
theorem create_conflict_preserves_store_witness :
    (∃ s ∈ [shA], s.shelter_id = shPayload1.shelter_id) ∧
    (∃ e ∈ [evNoEnd], e.event_id = evPayload10.event_id) ∧
    ((create_shelter [shA] shPayload1 99).1 = [shA] ∧
     (create_shelter [shA] shPayload1 99).2 = .error (.httpException 400
       ("El shelter_id " ++ toString shPayload1.shelter_id ++ " ya existe")) ∧
     (create_event [evNoEnd] evPayload10 99).1 = [evNoEnd] ∧
     (create_event [evNoEnd] evPayload10 99).2 = .error (.httpException 400
       ("El event_id " ++ toString evPayload10.event_id ++ " ya existe"))) :=
  ⟨by decide, by decide,
    create_conflict_preserves_store [shA] shPayload1 99 [evNoEnd] evPayload10 99
      (by decide) (by decide)⟩

/-- ShelterUpdate patch (schemas/shelters.py).  An outer none means the
field was absent from the request (pydantic exclude_unset drops it); an
outer some carries the value assigned to the column, where the inner
Option mirrors a nullable column.  An explicit JSON null for the NOT
NULL columns shelter_name and location would be assigned by the source
and then refused by the store constraint at commit; that state is
outside the modelled space. -/
structure ShelterUpdate where
  shelter_name : Option String := none
  description : Option (Option String) := none
  address : Option (Option String) := none
  contact_phone : Option (Option String) := none
  location : Option LocationPoint := none
  opening_hours : Option (Option String) := none
  capacity : Option (Option Int) := none
  available_beds : Option (Option Int) := none
  services : Option (Option String) := none
  details : Option (Option String) := none
deriving DecidableEq, Repr

/-- EventUpdate patch (schemas/events.py).  Same conventions as
ShelterUpdate; note that this schema has no end_date validator, unlike
EventBase.  NOT NULL columns here: event_name, event_type, location,
event_date. -/
structure EventUpdate where
  event_name : Option String := none
  description : Option (Option String) := none
  event_type : Option EventType := none
  address : Option (Option String) := none
  contact_phone : Option (Option String) := none
  location : Option LocationPoint := none
  opening_hours : Option (Option String) := none
  capacity : Option (Option Int) := none
  services : Option (Option String) := none
  event_date : Option Timestamp := none
  end_date : Option (Option Timestamp) := none
deriving DecidableEq, Repr

/-- The setattr loop of update_shelter: each field present in the
dumped patch overwrites the column, every other column keeps its value;
a present location is first re-encoded to WKT. -/
def applyShelterUpdate (s : Shelter) (u : ShelterUpdate) : Shelter :=
  { s with
    shelter_name := u.shelter_name.getD s.shelter_name,
    description := u.description.getD s.description,
    address := u.address.getD s.address,
    contact_phone := u.contact_phone.getD s.contact_phone,
    location := (u.location.map location_to_wkt).getD s.location,
    opening_hours := u.opening_hours.getD s.opening_hours,
    capacity := u.capacity.getD s.capacity,
    available_beds := u.available_beds.getD s.available_beds,
    services := u.services.getD s.services,
    details := u.details.getD s.details }

/-- The setattr loop of update_event: a present location is re-encoded
to WKT and a present event_type is stored through its string value. -/
def applyEventUpdate (e : Event) (u : EventUpdate) : Event :=
  { e with
    event_name := u.event_name.getD e.event_name,
    description := u.description.getD e.description,
    event_type := (u.event_type.map EventType.value).getD e.event_type,
    address := u.address.getD e.address,
    contact_phone := u.contact_phone.getD e.contact_phone,
    location := (u.location.map location_to_wkt).getD e.location,
    opening_hours := u.opening_hours.getD e.opening_hours,
    capacity := u.capacity.getD e.capacity,
    services := u.services.getD e.services,
    event_date := u.event_date.getD e.event_date,
    end_date := u.end_date.getD e.end_date }

/-- In-place mutation of the first row satisfying the predicate, as
SQLAlchemy setattr on the object returned by first(). -/
def replaceFirst {α : Type} (p : α → Bool) (x : α) : List α → List α
  | [] => []
  | y :: ys => if p y then x :: ys else y :: replaceFirst p x ys

/-- update_shelter (shelters_crud.py): None when the id is absent
(mapped to 404 by the route); otherwise the patched store and the
patched row. -/
def update_shelter (db : List Shelter) (shelter_id : Int) (u : ShelterUpdate) :
    Option (List Shelter × Shelter) :=
  match db.find? (fun s => s.shelter_id == shelter_id) with
  | none => none
  | some s =>
    let s2 := applyShelterUpdate s u
    some (replaceFirst (fun r => r.shelter_id == shelter_id) s2 db, s2)

/-- update_event (events_crud.py). -/
def update_event (db : List Event) (event_id : Int) (u : EventUpdate) :
    Option (List Event × Event) :=
  match db.find? (fun e => e.event_id == event_id) with
  | none => none
  | some e =>
    let e2 := applyEventUpdate e u
    some (replaceFirst (fun r => r.event_id == event_id) e2 db, e2)

lemma replaceFirst_self {α : Type} (p : α → Bool) (x : α) :
    ∀ (l : List α), l.find? p = some x → replaceFirst p x l = l := by
  intro l
  induction l with
  | nil => intro h; cases h
  | cons y ys ih =>
    intro h
    by_cases hp : p y
    · rw [List.find?_cons_of_pos _ hp] at h
      cases h
      simp [replaceFirst, hp]
    · rw [List.find?_cons_of_neg _ hp] at h
      simp [replaceFirst, hp, ih h]

/-- C4: patch semantics of update, for shelters and events.  When the
id exists, update succeeds, and every field absent from the patch keeps
its previous value; in particular the empty patch succeeds and returns
the store and the entity fully unchanged. -/
theorem update_patch_semantics
    (sdb : List Shelter) (sid : Int) (su : ShelterUpdate) (s : Shelter)
    (edb : List Event) (eid : Int) (eu : EventUpdate) (e : Event)
    (hs : sdb.find? (fun r => r.shelter_id == sid) = some s)
    (he : edb.find? (fun r => r.event_id == eid) = some e) :
    (∃ sdb2 s2, update_shelter sdb sid su = some (sdb2, s2) ∧
      (su.shelter_name = none → s2.shelter_name = s.shelter_name) ∧
      (su.description = none → s2.description = s.description) ∧
      (su.address = none → s2.address = s.address) ∧
      (su.contact_phone = none → s2.contact_phone = s.contact_phone) ∧
      (su.location = none → s2.location = s.location) ∧
      (su.opening_hours = none → s2.opening_hours = s.opening_hours) ∧
      (su.capacity = none → s2.capacity = s.capacity) ∧
      (su.available_beds = none → s2.available_beds = s.available_beds) ∧
      (su.services = none → s2.services = s.services) ∧
      (su.details = none → s2.details = s.details) ∧
      s2.shelter_id = s.shelter_id ∧ s2.created_at = s.created_at ∧
      s2.created_by = s.created_by) ∧
    (∃ edb2 e2, update_event edb eid eu = some (edb2, e2) ∧
      (eu.event_name = none → e2.event_name = e.event_name) ∧
      (eu.description = none → e2.description = e.description) ∧
      (eu.event_type = none → e2.event_type = e.event_type) ∧
      (eu.address = none → e2.address = e.address) ∧
      (eu.contact_phone = none → e2.contact_phone = e.contact_phone) ∧
      (eu.location = none → e2.location = e.location) ∧
      (eu.opening_hours = none → e2.opening_hours = e.opening_hours) ∧
      (eu.capacity = none → e2.capacity = e.capacity) ∧
      (eu.services = none → e2.services = e.services) ∧
      (eu.event_date = none → e2.event_date = e.event_date) ∧
      (eu.end_date = none → e2.end_date = e.end_date) ∧
      e2.event_id = e.event_id ∧ e2.created_at = e.created_at ∧
      e2.created_by = e.created_by) ∧
    update_shelter sdb sid {} = some (sdb, s) ∧
    update_event edb eid {} = some (edb, e) := by
  have hus : update_shelter sdb sid su =
      some (replaceFirst (fun r => r.shelter_id == sid) (applyShelterUpdate s su) sdb,
        applyShelterUpdate s su) := by
    simp [update_shelter, hs]
  have hue : update_event edb eid eu =
      some (replaceFirst (fun r => r.event_id == eid) (applyEventUpdate e eu) edb,
        applyEventUpdate e eu) := by
    simp [update_event, he]
  refine ⟨⟨_, _, hus, ?_⟩, ⟨_, _, hue, ?_⟩, ?_, ?_⟩
  · refine ⟨?_, ?_, ?_, ?_, ?_, ?_, ?_, ?_, ?_, ?_, rfl, rfl, rfl⟩ <;>
      (intro h; simp [applyShelterUpdate, h])
  · refine ⟨?_, ?_, ?_, ?_, ?_, ?_, ?_, ?_, ?_, ?_, ?_, rfl, rfl, rfl⟩ <;>
      (intro h; simp [applyEventUpdate, h])
  · have hA : applyShelterUpdate s {} = s := by
      simp [applyShelterUpdate]
    simp [update_shelter, hs, hA, replaceFirst_self _ _ _ hs]
  · have hA : applyEventUpdate e {} = e := by
      simp [applyEventUpdate]
    simp [update_event, he, hA, replaceFirst_self _ _ _ he]

/-- The empty shelter patch: no field set. -/
def suEmpty : ShelterUpdate := {}

/-- The empty event patch: no field set. -/
def euEmpty : EventUpdate := {}

/-- Witness for C4: one-row stores, the empty patch; update succeeds and
changes nothing. -/
theorem update_patch_semantics_witness :
    ([shA].find? (fun r => r.shelter_id == 1) = some shA) ∧
    ([evNoEnd].find? (fun r => r.event_id == 10) = some evNoEnd) ∧
    ((∃ sdb2 s2, update_shelter [shA] 1 suEmpty = some (sdb2, s2) ∧
      (suEmpty.shelter_name = none → s2.shelter_name = shA.shelter_name) ∧
      (suEmpty.description = none → s2.description = shA.description) ∧
      (suEmpty.address = none → s2.address = shA.address) ∧
      (suEmpty.contact_phone = none → s2.contact_phone = shA.contact_phone) ∧
      (suEmpty.location = none → s2.location = shA.location) ∧
      (suEmpty.opening_hours = none → s2.opening_hours = shA.opening_hours) ∧
      (suEmpty.capacity = none → s2.capacity = shA.capacity) ∧
      (suEmpty.available_beds = none → s2.available_beds = shA.available_beds) ∧
      (suEmpty.services = none → s2.services = shA.services) ∧
      (suEmpty.details = none → s2.details = shA.details) ∧
      s2.shelter_id = shA.shelter_id ∧ s2.created_at = shA.created_at ∧
      s2.created_by = shA.created_by) ∧
    (∃ edb2 e2, update_event [evNoEnd] 10 euEmpty = some (edb2, e2) ∧
      (euEmpty.event_name = none → e2.event_name = evNoEnd.event_name) ∧
      (euEmpty.description = none → e2.description = evNoEnd.description) ∧
      (euEmpty.event_type = none → e2.event_type = evNoEnd.event_type) ∧
      (euEmpty.address = none → e2.address = evNoEnd.address) ∧
      (euEmpty.contact_phone = none → e2.contact_phone = evNoEnd.contact_phone) ∧
      (euEmpty.location = none → e2.location = evNoEnd.location) ∧
      (euEmpty.opening_hours = none → e2.opening_hours = evNoEnd.opening_hours) ∧
      (euEmpty.capacity = none → e2.capacity = evNoEnd.capacity) ∧
      (euEmpty.services = none → e2.services = evNoEnd.services) ∧
      (euEmpty.event_date = none → e2.event_date = evNoEnd.event_date) ∧
      (euEmpty.end_date = none → e2.end_date = evNoEnd.end_date) ∧
      e2.event_id = evNoEnd.event_id ∧ e2.created_at = evNoEnd.created_at ∧
      e2.created_by = evNoEnd.created_by) ∧
    update_shelter [shA] 1 {} = some ([shA], shA) ∧
    update_event [evNoEnd] 10 {} = some ([evNoEnd], evNoEnd)) :=
  ⟨by decide, by decide,
    update_patch_semantics [shA] 1 suEmpty shA [evNoEnd] 10 euEmpty evNoEnd
      (by decide) (by decide)⟩

/-- Whether the first list is an initial segment of the second. -/
def charsMatchAt : List Char → List Char → Bool
  | [], _ => true
  | _ :: _, [] => false
  | p :: ps, c :: cs => p == c && charsMatchAt ps cs

/-- Whether the pattern occurs contiguously in the list. -/
def charsContain (pat : List Char) : List Char → Bool
  | [] => pat.isEmpty
  | c :: cs => charsMatchAt pat (c :: cs) || charsContain pat cs

/-- SQL `column ILIKE :pat` where pat is the filter wrapped in two
percent signs: case-insensitive substring containment. -/
def ilike (column : String) (pat : String) : Bool :=
  charsContain (pat.toList.map Char.toLower) (column.toList.map Char.toLower)

/-- ILIKE on a nullable column: NULL never matches. -/
def optIlike (column : Option String) (pat : String) : Bool :=
  match column with
  | some c => ilike c pat
  | none => false

/-- Python truthiness of an optional string argument: None and the
empty string are falsy, making the corresponding filter a no-op. -/
def strFilterGiven : Option String → Option String
  | some s => if s.isEmpty then none else some s
  | none => none

/-- The filtered (unpaginated) query of get_events: optional name,
event_type and city predicates composed conjunctively. -/
def eventsQuery (db : List Event)
    (name_filter event_type_filter city_filter : Option String) : List Event :=
  let q := db
  let q := match strFilterGiven name_filter with
    | some f => q.filter (fun e => ilike e.event_name f)
    | none => q
  let q := match strFilterGiven event_type_filter with
    | some f => q.filter (fun e => e.event_type == f)
    | none => q
  match strFilterGiven city_filter with
  | some f => q.filter (fun e => optIlike e.address f)
  | none => q

/-- get_events (events_crud.py): filters, count, order by event_date
descending, offset, limit. -/
def get_events (db : List Event) (skip limit : Nat)
    (name_filter event_type_filter city_filter : Option String) :
    List Event × Nat :=
  let q := eventsQuery db name_filter event_type_filter city_filter
  (((q.mergeSort eventDateDesc).drop skip).take limit, q.length)

/-- The filtered (unpaginated) query of get_shelters. -/
def sheltersQuery (db : List Shelter)
    (name_filter city_filter : Option String) : List Shelter :=
  let q := db
  let q := match strFilterGiven name_filter with
    | some f => q.filter (fun s => ilike s.shelter_name f)
    | none => q
  match strFilterGiven city_filter with
  | some f => q.filter (fun s => optIlike s.address f)
  | none => q

/-- Comparator of `ORDER BY Shelter.shelter_id DESC`. -/
def shelterIdDesc (a b : Shelter) : Bool := decide (b.shelter_id ≤ a.shelter_id)

/-- get_shelters (shelters_crud.py): filters, count, order by
shelter_id descending, offset, limit. -/
def get_shelters (db : List Shelter) (skip limit : Nat)
    (name_filter city_filter : Option String) : List Shelter × Nat :=
  let q := sheltersQuery db name_filter city_filter
  (((q.mergeSort shelterIdDesc).drop skip).take limit, q.length)

/-- Comparator of `ORDER BY Shelter.available_beds DESC`.  Every row
reaching this ORDER BY has already passed `available_beds >= min_beds`,
hence a non-NULL column, so the default value is never consulted. -/
def availableBedsDesc (a b : Shelter) : Bool :=
  decide (b.available_beds.getD 0 ≤ a.available_beds.getD 0)

/-- get_shelters_with_availability (shelters_crud.py): filter
`available_beds >= min_beds`, count, order by available_beds
descending, offset, limit. -/
def get_shelters_with_availability (db : List Shelter) (min_beds : Int)
    (skip limit : Nat) : List Shelter × Nat :=
  let q := db.filter (fun s => optGe s.available_beds min_beds)
  (((q.mergeSort availableBedsDesc).drop skip).take limit, q.length)

/-- Response of the shelters list route. -/
structure ShelterListResponse where
  shelters : List Shelter
  total : Nat
  page : Nat
  page_size : Nat
deriving DecidableEq, Repr

/-- list_shelters (routes/shelters.py): the route computes
`skip = (page - 1) * page_size` and passes page_size as the limit;
page is validated ge 1 and page_size ge 1, le 100 at the boundary. -/
def list_shelters (db : List Shelter) (page page_size : Nat)
    (name city : Option String) : ShelterListResponse :=
  let skip := (page - 1) * page_size
  let r := get_shelters db skip page_size name city
  { shelters := r.1, total := r.2, page := page, page_size := page_size }

/-- C6: pagination contract of the shelters listing: the page window is
exactly drop ((page-1)*page_size) then take page_size of the ordered
filtered set, at most page_size rows are returned, the total is the
size of the full filtered set independent of the requested page, and a
page beyond the data yields an empty list (with that same total), not
an error. -/
theorem pagination_contract (db : List Shelter) (page page_size : Nat)
    (name city : Option String)
    (hp : 1 ≤ page) (hps : 1 ≤ page_size) (hps100 : page_size ≤ 100) :
    (list_shelters db page page_size name city).shelters.length ≤ page_size ∧
    (list_shelters db page page_size name city).total =
      (sheltersQuery db name city).length ∧
    (list_shelters db page page_size name city).shelters =
      (((sheltersQuery db name city).mergeSort shelterIdDesc).drop
        ((page - 1) * page_size)).take page_size ∧
    ((sheltersQuery db name city).length ≤ (page - 1) * page_size →
      (list_shelters db page page_size name city).shelters = []) := by
  refine ⟨List.length_take_le _ _, rfl, rfl, ?_⟩
  intro hbeyond
  show (((sheltersQuery db name city).mergeSort shelterIdDesc).drop
      ((page - 1) * page_size)).take page_size = []
  rw [List.drop_eq_nil_of_le (by simpa [List.length_mergeSort] using hbeyond),
    List.take_nil]

/-- Witness for C6: a one-shelter store queried at page 5 of size 10:
the window is empty and the total is still 1. -/
theorem pagination_contract_witness :
    1 ≤ 5 ∧ 1 ≤ 10 ∧ 10 ≤ 100 ∧
    ((list_shelters [shA] 5 10 none none).shelters.length ≤ 10 ∧
     (list_shelters [shA] 5 10 none none).total =
       (sheltersQuery [shA] none none).length ∧
     (list_shelters [shA] 5 10 none none).shelters =
       (((sheltersQuery [shA] none none).mergeSort shelterIdDesc).drop
         ((5 - 1) * 10)).take 10 ∧
     ((sheltersQuery [shA] none none).length ≤ (5 - 1) * 10 →
       (list_shelters [shA] 5 10 none none).shelters = [])) :=
  ⟨by decide, by decide, by decide,
    pagination_contract [shA] 5 10 none none (by decide) (by decide) (by decide)⟩

/-- The EWKT text built for the query point in both nearby functions. -/
def point_wkt (longitude latitude : Rat) : String :=
  "SRID=4326;POINT(" ++ toString longitude ++ " " ++ toString latitude ++ ")"

/-- get_shelters_nearby (shelters_crud.py): ST_DWithin filter, ORDER BY
ST_Distance ascending, LIMIT.  ST_Distance and ST_DWithin are the
geodesic primitives of the external store (spec section 6) and are
passed in as parameters. -/
def get_shelters_nearby (stDistance : String → String → Rat)
    (stDWithin : String → String → Rat → Bool)
    (db : List Shelter) (longitude latitude : Rat) (radius_meters : Rat)
    (limit : Nat) : List Shelter :=
  let pw := point_wkt longitude latitude
  ((db.filter (fun s => stDWithin s.location pw radius_meters)).mergeSort
    (fun a b => decide (stDistance a.location pw ≤ stDistance b.location pw))).take limit

/-- get_events_nearby (events_crud.py): identical construction on the
events table. -/
def get_events_nearby (stDistance : String → String → Rat)
    (stDWithin : String → String → Rat → Bool)
    (db : List Event) (longitude latitude : Rat) (radius_meters : Rat)
    (limit : Nat) : List Event :=
  let pw := point_wkt longitude latitude
  ((db.filter (fun e => stDWithin e.location pw radius_meters)).mergeSort
    (fun a b => decide (stDistance a.location pw ≤ stDistance b.location pw))).take limit

lemma pairwise_sorted_page {α : Type} (key : α → Rat) (q : List α) (limit skip : Nat) :
    (((q.mergeSort (fun a b => decide (key a ≤ key b))).drop skip).take limit).Pairwise
      (fun a b => key a ≤ key b) := by
  have hs : (q.mergeSort (fun a b => decide (key a ≤ key b))).Pairwise
      (fun a b => (fun a b => decide (key a ≤ key b)) a b = true) :=
    List.sorted_mergeSort
      (fun a b c h1 h2 => by
        simp only [decide_eq_true_eq] at h1 h2 ⊢; exact le_trans h1 h2)
      (fun a b => by
        simp only [Bool.or_eq_true, decide_eq_true_eq]; exact le_total (key a) (key b))
      q
  have hsub : (((q.mergeSort (fun a b => decide (key a ≤ key b))).drop skip).take limit).Sublist
      (q.mergeSort (fun a b => decide (key a ≤ key b))) :=
    (List.take_sublist _ _).trans (List.drop_sublist _ _)
  exact (List.Pairwise.sublist hsub hs).imp (fun h => by simpa using h)

/-- C5: proximity-search ordering for shelters and events: whenever a
result precedes another in the returned sequence, its distance to the
query point is no larger. -/
theorem nearby_distance_ordering (stDistance : String → String → Rat)
    (stDWithin : String → String → Rat → Bool)
    (sdb : List Shelter) (edb : List Event)
    (longitude latitude radius_meters : Rat) (limit : Nat) :
    (get_shelters_nearby stDistance stDWithin sdb longitude latitude
        radius_meters limit).Pairwise
      (fun a b => stDistance a.location (point_wkt longitude latitude) ≤
        stDistance b.location (point_wkt longitude latitude)) ∧
    (get_events_nearby stDistance stDWithin edb longitude latitude
        radius_meters limit).Pairwise
      (fun a b => stDistance a.location (point_wkt longitude latitude) ≤
        stDistance b.location (point_wkt longitude latitude)) := by
  constructor
  · have h := pairwise_sorted_page
      (fun s : Shelter => stDistance s.location (point_wkt longitude latitude))
      (sdb.filter (fun s =>
        stDWithin s.location (point_wkt longitude latitude) radius_meters)) limit 0
    simpa [get_shelters_nearby] using h
  · have h := pairwise_sorted_page
      (fun e : Event => stDistance e.location (point_wkt longitude latitude))
      (edb.filter (fun e =>
        stDWithin e.location (point_wkt longitude latitude) radius_meters)) limit 0
    simpa [get_events_nearby] using h

lemma pairwise_page_of_comparator {α : Type} (le : α → α → Bool)
    (htrans : ∀ a b c, le a b = true → le b c = true → le a c = true)
    (htotal : ∀ a b, (le a b || le b a) = true)
    (q : List α) (skip limit : Nat) :
    (((q.mergeSort le).drop skip).take limit).Pairwise
      (fun a b => le a b = true) :=
  List.Pairwise.sublist ((List.take_sublist _ _).trans (List.drop_sublist _ _))
    (List.sorted_mergeSort htrans htotal q)

/-- Two events with the same event_date and different ids, used to
exhibit an ordering tie. -/
def evTie1 : Event :=
  { event_id := 1, event_name := "Event A", event_type := "other",
    location := "SRID=4326;POINT(0 0)", event_date := 50 }

/-- The second event of the tie. -/
def evTie2 : Event :=
  { event_id := 2, event_name := "Event B", event_type := "other",
    location := "SRID=4326;POINT(1 1)", event_date := 50 }

unseal List.merge List.mergeSort in
/-- C7 counterexample: the events listing orders by the non-unique key
event_date, so two enumerations of the same rows (a permutation) that
tie on the key are returned in different orders: the applied ordering
is explicit but not deterministic over the store data. -/
theorem listing_order_not_deterministic_cex :
    [evTie1, evTie2].Perm [evTie2, evTie1] ∧
    get_events [evTie1, evTie2] 0 10 none none none ≠
      get_events [evTie2, evTie1] 0 10 none none none :=
  ⟨List.Perm.swap evTie2 evTie1 [], by decide⟩

/-- C7 amended: every listing endpoint applies an explicit ORDER BY, so
each returned page is sorted by the endpoint key (event_date descending
for events, shelter_id descending for shelters, available_beds
descending for the availability listing); but where the key is not
unique, the relative order of tied rows follows the enumeration order
of the store, so the order is deterministic only up to the key. -/
theorem listing_order_explicit (edb : List Event) (sdb : List Shelter)
    (skip limit : Nat) (min_beds : Int)
    (ename etype ecity sname scity : Option String) :
    (get_events edb skip limit ename etype ecity).1.Pairwise
      (fun a b => b.event_date ≤ a.event_date) ∧
    (get_shelters sdb skip limit sname scity).1.Pairwise
      (fun a b => b.shelter_id ≤ a.shelter_id) ∧
    (get_shelters_with_availability sdb min_beds skip limit).1.Pairwise
      (fun a b => b.available_beds.getD 0 ≤ a.available_beds.getD 0) := by
  refine ⟨?_, ?_, ?_⟩
  · exact (pairwise_page_of_comparator eventDateDesc
      (fun a b c h1 h2 => by
        simp only [eventDateDesc, decide_eq_true_eq] at h1 h2 ⊢
        exact le_trans h2 h1)
      (fun a b => by
        simp only [eventDateDesc, Bool.or_eq_true, decide_eq_true_eq]
        exact le_total b.event_date a.event_date)
      (eventsQuery edb ename etype ecity) skip limit).imp
      (fun hh => by simpa [eventDateDesc] using hh)
  · exact (pairwise_page_of_comparator shelterIdDesc
      (fun a b c h1 h2 => by
        simp only [shelterIdDesc, decide_eq_true_eq] at h1 h2 ⊢
        exact le_trans h2 h1)
      (fun a b => by
        simp only [shelterIdDesc, Bool.or_eq_true, decide_eq_true_eq]
        exact le_total b.shelter_id a.shelter_id)
      (sheltersQuery sdb sname scity) skip limit).imp
      (fun hh => by simpa [shelterIdDesc] using hh)
  · exact (pairwise_page_of_comparator availableBedsDesc
      (fun a b c h1 h2 => by
        simp only [availableBedsDesc, decide_eq_true_eq] at h1 h2 ⊢
        exact le_trans h2 h1)
      (fun a b => by
        simp only [availableBedsDesc, Bool.or_eq_true, decide_eq_true_eq]
        exact le_total (b.available_beds.getD 0) (a.available_beds.getD 0))
      (sdb.filter (fun s => optGe s.available_beds min_beds)) skip limit).imp
      (fun hh => by simpa [availableBedsDesc] using hh)

/-- An event starting one hundred days after time zero, no end date. -/
def evFarFuture : Event :=
  { event_id := 20, event_name := "Far event", event_type := "other",
    location := "SRID=4326;POINT(0 0)", event_date := 100 * 86400 }

/-- C9 counterexample: at time 0 with days_ahead = 30, the upcoming
query still returns an event starting one hundred days out, because the
query never constrains event_date by the supplied horizon. -/
theorem upcoming_ignores_days_ahead_cex :
    0 + 30 * 86400 < evFarFuture.event_date ∧
    evFarFuture ∈ (get_upcoming_events [evFarFuture] 0 0 10 30).1 := by
  constructor
  · decide
  · unfold get_upcoming_events
    rw [mem_page_of_le _ _ _
      (le_trans (List.length_filter_le _ [evFarFuture]) (by decide))]
    decide

/-- C9 amended: the days_ahead parameter is accepted and threaded to
the crud function but has no effect whatsoever: the upcoming query
returns the same page and total for any two horizons. -/
theorem upcoming_ignores_days_ahead (db : List Event) (now : Timestamp)
    (skip limit : Nat) (d1 d2 : Int) :
    get_upcoming_events db now skip limit d1 =
      get_upcoming_events db now skip limit d2 := rfl

/-- Witness for the amended C9: the one hundred day event at horizons
30 and 365. -/
theorem upcoming_ignores_days_ahead_witness :
    get_upcoming_events [evFarFuture] 0 0 10 30 =
      get_upcoming_events [evFarFuture] 0 0 10 365 :=
  upcoming_ignores_days_ahead [evFarFuture] 0 0 10 30 365

/-- pydantic validation of an EventCreate payload (schemas/events.py):
the Field constraints of EventBase (name length 1 to 500, non-negative
capacity, coordinate ranges) plus the validate_end_date field
validator, which rejects a present end_date strictly earlier than
event_date. -/
def eventCreateValid (p : EventCreate) : Bool :=
  decide (1 ≤ p.event_name.length) && decide (p.event_name.length ≤ 500) &&
  (match p.capacity with | some c => decide (0 ≤ c) | none => true) &&
  decide (-180 ≤ p.location.longitude) && decide (p.location.longitude ≤ 180) &&
  decide (-90 ≤ p.location.latitude) && decide (p.location.latitude ≤ 90) &&
  (match p.end_date with | some v => decide (p.event_date ≤ v) | none => true)

/-- pydantic validation of an EventUpdate patch (schemas/events.py):
per-field constraints only; the update schema declares no cross-field
validator, so end_date and event_date are never compared here. -/
def eventUpdateValid (u : EventUpdate) : Bool :=
  (match u.event_name with
   | some n => decide (1 ≤ n.length) && decide (n.length ≤ 500)
   | none => true) &&
  (match u.capacity with | some (some c) => decide (0 ≤ c) | _ => true) &&
  (match u.location with
   | some p => decide (-180 ≤ p.longitude) && decide (p.longitude ≤ 180) &&
       decide (-90 ≤ p.latitude) && decide (p.latitude ≤ 90)
   | none => true)

/-- A patch setting only end_date, to a time before the stored start. -/
def euBadEnd : EventUpdate := { end_date := some (some (-5)) }

/-- C8 counterexample: the update schema accepts a patch that sets
end_date to a time strictly before the stored event_date, and the
update persists it, so a stored event violates end_date >= event_date:
the invariant is enforced on create only, not on update. -/
theorem stored_end_date_invariant_cex :
    eventUpdateValid euBadEnd = true ∧
    update_event [evNoEnd] 10 euBadEnd =
      some ([{ evNoEnd with end_date := some (-5) }],
        { evNoEnd with end_date := some (-5) }) ∧
    (∃ d, ({ evNoEnd with end_date := some (-5) } : Event).end_date = some d ∧
      d < ({ evNoEnd with end_date := some (-5) } : Event).event_date) :=
  ⟨by decide, by decide, ⟨-5, rfl, by decide⟩⟩

/-- C8 amended: the end-date invariant is enforced on the create path
only: a payload accepted by the EventCreate validation has
end_date >= event_date whenever end_date is present, and the row that
create_event persists for it carries the same dates, hence satisfies
the bound; the update path, whose schema lacks the validator, does not
preserve it. -/
theorem create_end_date_invariant (db : List Event) (p : EventCreate)
    (now : Timestamp) (d : Timestamp)
    (hv : eventCreateValid p = true) (hd : p.end_date = some d) :
    p.event_date ≤ d ∧
    ∀ db2 row, create_event db p now = (db2, .ok row) →
      row.end_date = some d ∧ row.event_date ≤ d := by
  have hle : p.event_date ≤ d := by
    unfold eventCreateValid at hv
    rw [hd] at hv
    simp only [Bool.and_eq_true, decide_eq_true_eq] at hv
    exact hv.2
  refine ⟨hle, ?_⟩
  intro db2 row hcr
  unfold create_event at hcr
  cases hf : db.find? (fun e => e.event_id == p.event_id) with
  | some x => rw [hf] at hcr; simp at hcr
  | none =>
    rw [hf] at hcr
    simp only [Prod.mk.injEq, Except.ok.injEq] at hcr
    obtain ⟨hdb2, hrow⟩ := hcr
    subst hrow
    exact ⟨by simpa using hd, by simpa using hle⟩

/-- A create payload with an end date after the start date. -/
def evPayloadWithEnd : EventCreate :=
  { event_id := 11, event_name := "Clinic", event_type := .medical,
    location := { longitude := 0, latitude := 0 }, event_date := 0,
    end_date := some 7 }

/-- Witness for the amended C8: a valid payload ending at 7 after
starting at 0, created into the empty store. -/
theorem create_end_date_invariant_witness :
    eventCreateValid evPayloadWithEnd = true ∧
    evPayloadWithEnd.end_date = some 7 ∧
    (evPayloadWithEnd.event_date ≤ 7 ∧
      ∀ db2 row, create_event [] evPayloadWithEnd 99 = (db2, .ok row) →
        row.end_date = some 7 ∧ row.event_date ≤ 7) :=
  ⟨by decide, rfl,
    create_end_date_invariant [] evPayloadWithEnd 99 7 (by decide) rfl⟩

/-- C10: the availability listing never returns and never counts a
shelter whose available_beds is NULL: every returned row has a non-NULL
available_beds, and the total equals the count of matching rows among
the non-NULL rows only, for every min_beds. -/
theorem availability_excludes_null_beds (db : List Shelter) (min_beds : Int)
    (skip limit : Nat) :
    (∀ s ∈ (get_shelters_with_availability db min_beds skip limit).1,
      s.available_beds ≠ none) ∧
    (get_shelters_with_availability db min_beds skip limit).2 =
      ((db.filter (fun s => s.available_beds.isSome)).filter
        (fun s => optGe s.available_beds min_beds)).length := by
  constructor
  · intro s hs hnone
    have h1 : s ∈ (db.filter
        (fun s => optGe s.available_beds min_beds)).mergeSort availableBedsDesc :=
      ((List.take_sublist _ _).trans (List.drop_sublist _ _)).subset hs
    have h2 := (List.mem_filter.mp (List.mem_mergeSort.mp h1)).2
    rw [hnone] at h2
    simp [optGe] at h2
  · show (db.filter (fun s => optGe s.available_beds min_beds)).length = _
    rw [List.filter_filter]
    congr 1
    apply List.filter_congr
    intro s hsm
    cases hb : s.available_beds <;> simp [optGe, hb]

/-- A shelter with no recorded availability. -/
def shNull : Shelter :=
  { shelter_id := 3, shelter_name := "No beds info",
    location := "SRID=4326;POINT(2 2)", available_beds := none }

/-- Witness for C10: with min_beds 1 over a store holding one shelter
with 5 beds and one with NULL beds, the NULL one is not returned and
the total counts only non-NULL rows. -/
theorem availability_excludes_null_beds_witness :
    shNull.available_beds = none ∧
    shNull ∉ (get_shelters_with_availability [shA, shNull] 1 0 10).1 ∧
    (get_shelters_with_availability [shA, shNull] 1 0 10).2 =
      (([shA, shNull].filter (fun s => s.available_beds.isSome)).filter
        (fun s => optGe s.available_beds 1)).length :=
  ⟨rfl,
    fun hmem =>
      (availability_excludes_null_beds [shA, shNull] 1 0 10).1 shNull hmem rfl,
    (availability_excludes_null_beds [shA, shNull] 1 0 10).2⟩
